import Mathlib

/-!
Shallow embedding of the GramSeva_backend investment-to-distribution
pipeline (controllers/investmentController.js, controllers/performanceController.js,
models/Business.js, models/Investment.js, models/BusinessPerformance.js,
models/Distribution.js).

Currency amounts and derived ratios are modelled as exact rationals.
Timestamps are abstract ticks (Nat), object ids are Nat, and textual
fields (notes, references, failure reasons) are Nat codes, since no
verified property inspects their content.  Fields of the schemas that no
modelled operation reads or writes (documents, location, breakdown,
notifications, timeline) are elided.  A Mongoose document save is
modelled as: run the pre-save middleware on the document, then check the
schema validation constraints on the resulting document, persisting only
on success.
-/

namespace GramSeva

/-- Error taxonomy of the HTTP handlers: 404, 400 state errors, 403, 409,
mongoose validation failures, and 500. -/
inductive ApiErr
  | notFound
  | invalidState
  | forbidden
  | conflict
  | validation
  | internal
deriving DecidableEq

/-- JS Math.round: round half toward positive infinity. -/
def jsRound (q : ℚ) : ℚ := ((⌊q + 1/2⌋ : ℤ) : ℚ)

/-! ## Business (models/Business.js) -/

/-- Business.status enum: open, funded, closed ("open" is a Lean keyword,
hence the constructor name opn). -/
inductive BizStatus
  | opn
  | funded
  | closed
deriving DecidableEq

/-- Business.metrics sub-document. -/
structure BizMetrics where
  totalInvestors : ℚ
  averageInvestment : ℚ
  fundingProgress : ℚ
deriving DecidableEq

/-- models/Business.js schema, restricted to the funding fields. -/
structure Business where
  fundingGoal : ℚ
  raisedAmount : ℚ
  status : BizStatus
  metrics : BizMetrics
deriving DecidableEq

/-- Business.js virtual fundingProgressPercentage:
0 when fundingGoal is 0, else Math.round(raisedAmount / fundingGoal * 100). -/
def fundingProgressPercentage (b : Business) : ℚ :=
  if b.fundingGoal = 0 then 0 else jsRound (b.raisedAmount / b.fundingGoal * 100)

/-- Business.js pre-save middleware: refresh metrics.fundingProgress.
The middleware fires when raisedAmount or fundingGoal was modified, which
is the case on every settlement-path save that we model. -/
def bizSave (b : Business) : Business :=
  { b with metrics := { b.metrics with fundingProgress := fundingProgressPercentage b } }

/-- Business.js updateStatus: funded when raisedAmount has reached the
goal; a funded business whose raisedAmount dropped below the goal reverts
to open; otherwise the status is untouched. -/
def updateStatus (b : Business) : Business :=
  if b.fundingGoal ≤ b.raisedAmount then { b with status := .funded }
  else if b.status = .funded ∧ b.raisedAmount < b.fundingGoal then { b with status := .opn }
  else b

/-- Business.js isFullyFunded. -/
def isFullyFunded (b : Business) : Bool := b.fundingGoal ≤ b.raisedAmount

/-! ## Investment (models/Investment.js) -/

/-- Investment.status enum. -/
inductive InvStatus
  | pending
  | completed
  | refunded
  | failed
deriving DecidableEq

/-- Investment.payment.paymentStatus enum. -/
inductive PayStatus
  | pending
  | completed
  | failed
deriving DecidableEq

/-- Investment.payment sub-document. -/
structure InvPayment where
  transactionId : Option Nat
  paymentMethod : Nat
  paymentStatus : PayStatus
  paidAt : Option Nat
  paymentReference : Option Nat
deriving DecidableEq

/-- Investment.tracking sub-document. -/
structure Tracking where
  investedAt : Option Nat
  lastUpdated : Nat
  notes : Option Nat
deriving DecidableEq

/-- Investment.refund sub-document, populated by processRefund. -/
structure Refund where
  amount : Option ℚ
  reason : Option Nat
  processedAt : Option Nat
  processedBy : Option Nat
deriving DecidableEq

/-- models/Investment.js schema, restricted to the lifecycle fields. -/
structure Investment where
  id : Nat
  investor : Nat
  business : Nat
  amount : ℚ
  status : InvStatus
  payment : InvPayment
  tracking : Tracking
  refund : Refund
deriving DecidableEq

/-- Investment.js pre-save middleware: stamp tracking.investedAt when the
status was just modified to completed and it is still unset; always
refresh tracking.lastUpdated. -/
def invPresave (now : Nat) (statusModified : Bool) (inv : Investment) : Investment :=
  if statusModified ∧ inv.status = .completed ∧ inv.tracking.investedAt = none then
    { inv with tracking := { inv.tracking with investedAt := some now, lastUpdated := now } }
  else
    { inv with tracking := { inv.tracking with lastUpdated := now } }

/-- The paymentDetails object built by verifyInvestment before calling
markAsCompleted. -/
structure PaymentDetails where
  paymentMethod : Nat
  paymentReference : Option Nat
  paymentStatus : PayStatus
  paidAt : Option Nat
deriving DecidableEq

/-- Investment.js markAsCompleted: status completed, payment details
merged in, paymentStatus completed, paidAt and tracking.investedAt
stamped, then the document is saved (running the pre-save middleware). -/
def markAsCompleted (now : Nat) (pd : PaymentDetails) (inv : Investment) : Investment :=
  invPresave now true { inv with
    status := .completed,
    payment := { inv.payment with
      paymentMethod := pd.paymentMethod,
      paymentReference := pd.paymentReference,
      paymentStatus := .completed,
      paidAt := some now },
    tracking := { inv.tracking with investedAt := some now } }

/-- Investment.js processRefund: status refunded, refund sub-document
populated, then save.  The business record is not touched: raisedAmount
keeps the credit of the refunded investment. -/
def processRefund (refundAmount : ℚ) (reason processedBy now : Nat)
    (inv : Investment) : Investment :=
  invPresave now true { inv with
    status := .refunded,
    refund := { amount := some refundAmount, reason := some reason,
                processedAt := some now, processedBy := some processedBy } }

/-! ## Settlement (controllers/investmentController.js verifyInvestment) -/

/-- The slice of store state touched by verifyInvestment: the investment
being settled and its (possibly absent) business record. -/
structure SettleState where
  inv : Investment
  biz? : Option Business
deriving DecidableEq

/-- controllers/investmentController.js verifyInvestment: ownership check,
pending check, mock payment verification (always succeeds), completion of
the investment, then credit of the business funding totals and status
re-derivation.  An early-return error leaves the state untouched. -/
def verifyInvestment (caller now : Nat) (paymentReference : Option Nat)
    (paymentMethod : Nat) (s : SettleState) : Except ApiErr Unit × SettleState :=
  if s.inv.investor ≠ caller then (.error .forbidden, s)
  else if s.inv.status ≠ .pending then (.error .invalidState, s)
  else
    let pd : PaymentDetails :=
      { paymentMethod := paymentMethod, paymentReference := paymentReference,
        paymentStatus := .completed, paidAt := some now }
    let inv1 := markAsCompleted now pd s.inv
    let biz1 :=
      match s.biz? with
      | none => none
      | some b =>
        let b := { b with raisedAmount := b.raisedAmount + s.inv.amount }
        let b := { b with metrics := { b.metrics with totalInvestors := b.metrics.totalInvestors + 1 } }
        let b := { b with metrics := { b.metrics with
          averageInvestment := b.raisedAmount / b.metrics.totalInvestors } }
        some (bizSave (updateStatus b))
    (.ok (), { inv := inv1, biz? := biz1 })

/-- The business record produced by the settlement path of
verifyInvestment, written as one update: raisedAmount credited, investor
count incremented, averageInvestment recomputed, status re-derived, saved. -/
def settledBusiness (amount : ℚ) (b : Business) : Business :=
  bizSave (updateStatus { b with
    raisedAmount := b.raisedAmount + amount,
    metrics := { b.metrics with
      totalInvestors := b.metrics.totalInvestors + 1,
      averageInvestment := (b.raisedAmount + amount) / (b.metrics.totalInvestors + 1) } })

/-! ## BusinessPerformance (models/BusinessPerformance.js) -/

/-- BusinessPerformance.status enum. -/
inductive PerfStatus
  | draft
  | submitted
  | verified
  | approved
deriving DecidableEq

/-- BusinessPerformance.metrics sub-document. -/
structure PerfMetrics where
  revenueGrowth : ℚ
  profitMargin : ℚ
  expenseRatio : ℚ
  returnOnInvestment : ℚ
deriving DecidableEq

/-- models/BusinessPerformance.js schema, restricted to the financial and
workflow fields. -/
structure Performance where
  id : Nat
  business : Nat
  periodYear : Nat
  periodQuarter : Nat
  revenue : ℚ
  expenses : ℚ
  profit : ℚ
  loss : ℚ
  metrics : PerfMetrics
  status : PerfStatus
  submittedBy : Nat
  verifiedBy : Option Nat
  verifiedAt : Option Nat
deriving DecidableEq

/-- First block of the BusinessPerformance.js pre-save middleware: derive
profit and loss from netResult = revenue - expenses (loss via Math.abs). -/
def bpDeriveNet (p : Performance) : Performance :=
  if 0 ≤ p.revenue - p.expenses then
    { p with profit := p.revenue - p.expenses, loss := 0 }
  else
    { p with profit := 0, loss := |p.revenue - p.expenses| }

/-- Second block of the pre-save middleware: when revenue is positive,
refresh profitMargin and expenseRatio. -/
def bpDeriveMargins (p : Performance) : Performance :=
  if 0 < p.revenue then
    { p with metrics := { p.metrics with
        profitMargin := p.profit / p.revenue * 100,
        expenseRatio := p.expenses / p.revenue * 100 } }
  else p

/-- Third block of the pre-save middleware: when revenue is positive,
refresh the placeholder returnOnInvestment. -/
def bpDeriveROI (p : Performance) : Performance :=
  if 0 < p.revenue then
    { p with metrics := { p.metrics with returnOnInvestment := p.profit / p.revenue * 100 } }
  else p

/-- BusinessPerformance.js pre-save middleware: the three derivation
blocks in source order. -/
def bpPresave (p : Performance) : Performance := bpDeriveROI (bpDeriveMargins (bpDeriveNet p))

/-- A freshly constructed performance document (schema defaults for the
derived fields), as built by submitPerformance before its first save. -/
def mkPerformance (id business periodYear periodQuarter : Nat)
    (revenue expenses : ℚ) (submittedBy : Nat) : Performance :=
  { id := id, business := business, periodYear := periodYear,
    periodQuarter := periodQuarter, revenue := revenue, expenses := expenses,
    profit := 0, loss := 0,
    metrics := { revenueGrowth := 0, profitMargin := 0, expenseRatio := 0,
                 returnOnInvestment := 0 },
    status := .submitted, submittedBy := submittedBy,
    verifiedBy := none, verifiedAt := none }

/-- BusinessPerformance.js approve: status approved, approver recorded in
verifiedBy and verifiedAt, then save (re-running the pre-save
derivation). -/
def perfApprove (approvedBy now : Nat) (p : Performance) : Performance :=
  bpPresave { p with status := .approved, verifiedBy := some approvedBy,
                     verifiedAt := some now }

/-- BusinessPerformance.js verify: status verified, verifier and
timestamp recorded, optional internal notes, then save. -/
def perfVerify (verifiedBy now : Nat) (p : Performance) : Performance :=
  bpPresave { p with status := .verified, verifiedBy := some verifiedBy,
                     verifiedAt := some now }

/-! ## Distribution (models/Distribution.js, given as an unnamed source file) -/

/-- Distribution.status enum. -/
inductive DistStatus
  | pending
  | approved
  | paid
  | failed
  | cancelled
deriving DecidableEq

/-- Distribution.metadata.distributionType enum. -/
inductive DistType
  | profit
  | loss
  | mixed
deriving DecidableEq

/-- Distribution.calculation sub-document: the audit snapshot frozen at
creation time. -/
structure Calc where
  investmentAmount : ℚ
  totalBusinessInvestment : ℚ
  sharePercentage : ℚ
  businessProfit : ℚ
  businessLoss : ℚ
deriving DecidableEq

/-- Distribution.amounts sub-document. -/
structure Amounts where
  profitShare : ℚ
  lossShare : ℚ
  netDistribution : ℚ
deriving DecidableEq

/-- Distribution.payment sub-document. -/
structure DistPayment where
  method : Option Nat
  transactionId : Option Nat
  processedAt : Option Nat
  processedBy : Option Nat
  failureReason : Option Nat
deriving DecidableEq

/-- Distribution.approval sub-document. -/
structure Approval where
  approvedBy : Option Nat
  approvedAt : Option Nat
  approvalNotes : Option Nat
deriving DecidableEq

/-- Distribution.audit sub-document. -/
structure Audit where
  createdBy : Nat
  lastModifiedBy : Option Nat
  lastModifiedAt : Nat
deriving DecidableEq

/-- Distribution.metadata sub-document; distributionType is a required
field with no default, hence an Option that validation requires to be
set. -/
structure Metadata where
  distributionType : Option DistType
  taxDeducted : ℚ
  netAmountAfterTax : ℚ
deriving DecidableEq

/-- models/Distribution.js schema. -/
structure Distribution where
  business : Nat
  businessPerformance : Nat
  investor : Nat
  investment : Nat
  calculation : Calc
  amounts : Amounts
  status : DistStatus
  payment : DistPayment
  periodYear : Nat
  periodQuarter : Nat
  approval : Approval
  audit : Audit
  metadata : Metadata
deriving DecidableEq

/-- Distribution.js pre-save middleware: recompute profitShare, lossShare
and netDistribution from the calculation snapshot, derive
metadata.distributionType from the positive shares (left untouched when
both shares are zero), recompute netAmountAfterTax, and stamp
audit.lastModifiedAt. -/
def dPresave (now : Nat) (d : Distribution) : Distribution :=
  let profitShare := d.calculation.sharePercentage / 100 * d.calculation.businessProfit
  let lossShare := d.calculation.sharePercentage / 100 * d.calculation.businessLoss
  let net := profitShare - lossShare
  let dtype :=
    if 0 < profitShare ∧ 0 < lossShare then some DistType.mixed
    else if 0 < profitShare then some DistType.profit
    else if 0 < lossShare then some DistType.loss
    else d.metadata.distributionType
  { d with
    amounts := { profitShare := profitShare, lossShare := lossShare, netDistribution := net },
    metadata := { d.metadata with
      distributionType := dtype,
      netAmountAfterTax := net - d.metadata.taxDeducted },
    audit := { d.audit with lastModifiedAt := now } }

/-- The amounts the Distribution pre-save middleware derives from a
calculation snapshot. -/
def computeAmounts (c : Calc) : Amounts :=
  { profitShare := c.sharePercentage / 100 * c.businessProfit,
    lossShare := c.sharePercentage / 100 * c.businessLoss,
    netDistribution := c.sharePercentage / 100 * c.businessProfit
      - c.sharePercentage / 100 * c.businessLoss }

/-- The Distribution schema validation constraints that can fail on the
documents built by this pipeline: metadata.distributionType is required,
sharePercentage lies in [0, 100], profitShare and lossShare are
non-negative, and the period quarter lies in [1, 4]. -/
def dValidate (d : Distribution) : Prop :=
  d.metadata.distributionType.isSome = true ∧
  0 ≤ d.calculation.sharePercentage ∧
  d.calculation.sharePercentage ≤ 100 ∧
  0 ≤ d.amounts.profitShare ∧
  0 ≤ d.amounts.lossShare ∧
  1 ≤ d.periodQuarter ∧
  d.periodQuarter ≤ 4

instance (d : Distribution) : Decidable (dValidate d) := by
  unfold dValidate
  infer_instance

/-- Mongoose save of a Distribution document: run the pre-save
middleware, then validate the resulting document; only a document that
passes validation is persisted. -/
def dSave (now : Nat) (d : Distribution) : Except ApiErr Distribution :=
  let d := dPresave now d
  if dValidate d then .ok d else .error .validation

/-- Distribution.js approve: status approved, approver and timestamp
recorded, optional notes, lastModifiedBy stamped, then save. -/
def dApprove (approvedBy : Nat) (approvalNotes : Option Nat) (now : Nat)
    (d : Distribution) : Except ApiErr Distribution :=
  let d := { d with
    status := .approved,
    approval := { approvedBy := some approvedBy, approvedAt := some now,
                  approvalNotes :=
                    match approvalNotes with
                    | some n => some n
                    | none => d.approval.approvalNotes },
    audit := { d.audit with lastModifiedBy := some approvedBy } }
  dSave now d

/-- The paymentDetails object built by the markDistributionAsPaid
controller: a payment method and transaction id, spread over the stored
payment sub-document. -/
structure DistPaymentDetails where
  method : Option Nat
  transactionId : Option Nat
deriving DecidableEq

/-- Distribution.js markAsPaid: status paid, payment details merged over
the payment sub-document, processedAt and processedBy stamped,
lastModifiedBy stamped, then save. -/
def dMarkAsPaid (processedBy : Nat) (pd : DistPaymentDetails) (now : Nat)
    (d : Distribution) : Except ApiErr Distribution :=
  let d := { d with
    status := .paid,
    payment := { d.payment with
      method := pd.method, transactionId := pd.transactionId,
      processedAt := some now, processedBy := some processedBy },
    audit := { d.audit with lastModifiedBy := some processedBy } }
  dSave now d

/-- Distribution.js markAsFailed: status failed, failure reason and
processedBy recorded on the payment sub-document, lastModifiedBy
stamped, then save. -/
def dMarkAsFailed (failureReason : Option Nat) (processedBy : Nat) (now : Nat)
    (d : Distribution) : Except ApiErr Distribution :=
  let d := { d with
    status := .failed,
    payment := { d.payment with
      failureReason := failureReason, processedBy := some processedBy },
    audit := { d.audit with lastModifiedBy := some processedBy } }
  dSave now d

/-! ## Distribution fan-out (controllers/performanceController.js approvePerformance) -/

/-- The query Investment.find with business and status completed: the
completed investments of the business. -/
def completedOf (invs : List Investment) : List Investment :=
  invs.filter (fun i => decide (i.status = InvStatus.completed))

/-- investments.reduce summing inv.amount. -/
def totalOf (l : List Investment) : ℚ := (l.map (fun i => i.amount)).sum

/-- The Distribution document constructed by approvePerformance for one
completed investment: the calculation snapshot holds the investment
amount, the batch total, sharePercentage = amount / total * 100, and the
profit and loss of the just-approved performance; every other field takes
its schema default. -/
def mkDistribution (adminId now : Nat) (perf : Performance) (total : ℚ)
    (i : Investment) : Distribution :=
  { business := perf.business,
    businessPerformance := perf.id,
    investor := i.investor,
    investment := i.id,
    calculation := {
      investmentAmount := i.amount,
      totalBusinessInvestment := total,
      sharePercentage := i.amount / total * 100,
      businessProfit := perf.profit,
      businessLoss := perf.loss },
    amounts := { profitShare := 0, lossShare := 0, netDistribution := 0 },
    status := .pending,
    payment := { method := none, transactionId := none, processedAt := none,
                 processedBy := none, failureReason := none },
    periodYear := perf.periodYear,
    periodQuarter := perf.periodQuarter,
    approval := { approvedBy := none, approvedAt := none, approvalNotes := none },
    audit := { createdBy := adminId, lastModifiedBy := none, lastModifiedAt := now },
    metadata := { distributionType := none, taxDeducted := 0, netAmountAfterTax := 0 } }

/-- The per-investor save loop of approvePerformance: each Distribution is
persisted individually (appended to the store) and the first failing save
aborts the loop, leaving the already-persisted prefix in the store.
faults is an external-failure oracle: faults k means the k-th save is
rejected by the storage layer for a reason other than validation. -/
def saveLoop (faults : Nat → Bool) (now k : Nat) :
    List Distribution → List Distribution → Except ApiErr Unit × List Distribution
  | [], store => (.ok (), store)
  | d :: rest, store =>
    if faults k then (.error .internal, store)
    else
      match dSave now d with
      | .error e => (.error e, store)
      | .ok d' => saveLoop faults now (k + 1) rest (store ++ [d'])

/-- controllers/performanceController.js approvePerformance, with an
external-failure oracle for the per-distribution saves: reject unless the
performance is verified; approve it; collect the completed investments of
the business; with none, succeed with no distributions; otherwise build
and save one Distribution per completed investment, sequentially, with no
rollback on failure.  The result carries the performance record and the
distribution store after the run. -/
def approvePerformanceF (faults : Nat → Bool) (adminId now : Nat)
    (perf : Performance) (invs : List Investment) (store : List Distribution) :
    Except ApiErr Unit × Performance × List Distribution :=
  if perf.status ≠ .verified then (.error .invalidState, perf, store)
  else
    let perf := perfApprove adminId now perf
    let completed := completedOf invs
    if completed.isEmpty then (.ok (), perf, store)
    else
      let total := totalOf completed
      let ds := completed.map (mkDistribution adminId now perf total)
      let r := saveLoop faults now 0 ds store
      (r.1, perf, r.2)

/-- approvePerformance when the storage layer never injects a failure. -/
def approvePerformance (adminId now : Nat) (perf : Performance)
    (invs : List Investment) (store : List Distribution) :
    Except ApiErr Unit × Performance × List Distribution :=
  approvePerformanceF (fun _ => false) adminId now perf invs store

/-- The batch that a successful fan-out appends to the store: each
Distribution of each completed investment after its pre-save derivation. -/
def fanDistributions (adminId now : Nat) (perf : Performance)
    (completed : List Investment) : List Distribution :=
  completed.map (fun i =>
    dPresave now (mkDistribution adminId now perf (totalOf completed) i))

/-! ## On-demand share percentages -/

/-- Investment.js calculateSharePercentage: 0 when the business is absent
or its raisedAmount is 0, else amount / raisedAmount * 100. -/
def calculateSharePercentage (inv : Investment) (biz? : Option Business) : ℚ :=
  match biz? with
  | none => 0
  | some b => if b.raisedAmount = 0 then 0 else inv.amount / b.raisedAmount * 100

/-- Investment.js getTotalInvestmentForBusiness: the aggregate sum of
amount over the investments of the business with status completed (0 when
there are none). -/
def getTotalInvestmentForBusiness (invs : List Investment) : ℚ :=
  totalOf (completedOf invs)

/-- The share percentage computed inline by the getBusinessInvestments
controller: amount / totalInvestment * 100 when totalInvestment is
positive, else 0. -/
def listedSharePercentage (inv : Investment) (totalInvestment : ℚ) : ℚ :=
  if 0 < totalInvestment then inv.amount / totalInvestment * 100 else 0

end GramSeva

deriving instance DecidableEq for Except

namespace GramSeva

/-! ## Claim-level specifications -/

/-- Specification of one settlement (claim C3): the call succeeds, the
investment is completed with payment.paidAt and tracking.investedAt
stamped, the business is credited by exactly the investment amount, its
investor count grows by one, averageInvestment is raisedAmount divided by
totalInvestors, and the resulting status is funded exactly when the new
raisedAmount has reached the funding goal. -/
def settleSpec (caller now : Nat) (ref : Option Nat) (method : Nat)
    (inv : Investment) (b : Business) : Prop :=
  (verifyInvestment caller now ref method ⟨inv, some b⟩).1 = .ok () ∧
  (verifyInvestment caller now ref method ⟨inv, some b⟩).2.inv.status = .completed ∧
  (verifyInvestment caller now ref method ⟨inv, some b⟩).2.inv.payment.paidAt = some now ∧
  (verifyInvestment caller now ref method ⟨inv, some b⟩).2.inv.tracking.investedAt = some now ∧
  (verifyInvestment caller now ref method ⟨inv, some b⟩).2.biz?.isSome = true ∧
  ∀ b2, (verifyInvestment caller now ref method ⟨inv, some b⟩).2.biz? = some b2 →
    b2.raisedAmount = b.raisedAmount + inv.amount ∧
    b2.metrics.totalInvestors = b.metrics.totalInvestors + 1 ∧
    b2.metrics.averageInvestment = b2.raisedAmount / b2.metrics.totalInvestors ∧
    (b2.status = .funded ↔ b.fundingGoal ≤ b2.raisedAmount)

/-- Specification of the distribution fan-out (claim C1, amended): with no
completed investment, approval succeeds and creates nothing; otherwise the
run appends exactly one Distribution per completed investment, and each
created Distribution carries the claimed snapshot and amounts:
totalBusinessInvestment is the sum of the completed amounts,
sharePercentage is amount over total times 100, profitShare is
sharePercentage over 100 times the performance profit, lossShare likewise
from the loss, and netDistribution is their difference. -/
def fanoutSpec (adminId now : Nat) (perf : Performance) (invs : List Investment)
    (store : List Distribution) : Prop :=
  (completedOf invs = [] →
    approvePerformance adminId now perf invs store
      = (.ok (), perfApprove adminId now perf, store)) ∧
  (completedOf invs ≠ [] →
    approvePerformance adminId now perf invs store
      = (.ok (), perfApprove adminId now perf,
          store ++ fanDistributions adminId now (perfApprove adminId now perf)
            (completedOf invs)) ∧
    (fanDistributions adminId now (perfApprove adminId now perf)
        (completedOf invs)).length = (completedOf invs).length ∧
    ∀ i ∈ completedOf invs,
      (dPresave now (mkDistribution adminId now (perfApprove adminId now perf)
          (totalOf (completedOf invs)) i)).calculation.investmentAmount = i.amount ∧
      (dPresave now (mkDistribution adminId now (perfApprove adminId now perf)
          (totalOf (completedOf invs)) i)).calculation.totalBusinessInvestment
        = totalOf (completedOf invs) ∧
      (dPresave now (mkDistribution adminId now (perfApprove adminId now perf)
          (totalOf (completedOf invs)) i)).calculation.sharePercentage
        = i.amount / totalOf (completedOf invs) * 100 ∧
      (dPresave now (mkDistribution adminId now (perfApprove adminId now perf)
          (totalOf (completedOf invs)) i)).amounts.profitShare
        = i.amount / totalOf (completedOf invs) * 100 / 100
            * (perfApprove adminId now perf).profit ∧
      (dPresave now (mkDistribution adminId now (perfApprove adminId now perf)
          (totalOf (completedOf invs)) i)).amounts.lossShare
        = i.amount / totalOf (completedOf invs) * 100 / 100
            * (perfApprove adminId now perf).loss ∧
      (dPresave now (mkDistribution adminId now (perfApprove adminId now perf)
          (totalOf (completedOf invs)) i)).amounts.netDistribution
        = (dPresave now (mkDistribution adminId now (perfApprove adminId now perf)
            (totalOf (completedOf invs)) i)).amounts.profitShare
          - (dPresave now (mkDistribution adminId now (perfApprove adminId now perf)
              (totalOf (completedOf invs)) i)).amounts.lossShare)

/-- Conservation of the created batch (claim C2): the run appends exactly
the batch, the profitShares of the batch sum to the approved performance
profit, the lossShares sum to its loss, and the sharePercentages sum to
100, all in exact rational arithmetic. -/
def batchConservation (adminId now : Nat) (perf : Performance)
    (invs : List Investment) (store : List Distribution) : Prop :=
  approvePerformance adminId now perf invs store
    = (.ok (), perfApprove adminId now perf,
        store ++ fanDistributions adminId now (perfApprove adminId now perf)
          (completedOf invs)) ∧
  ((fanDistributions adminId now (perfApprove adminId now perf) (completedOf invs)).map
      (fun d => d.amounts.profitShare)).sum = (perfApprove adminId now perf).profit ∧
  ((fanDistributions adminId now (perfApprove adminId now perf) (completedOf invs)).map
      (fun d => d.amounts.lossShare)).sum = (perfApprove adminId now perf).loss ∧
  ((fanDistributions adminId now (perfApprove adminId now perf) (completedOf invs)).map
      (fun d => d.calculation.sharePercentage)).sum = 100

/-- Derivation performed by the BusinessPerformance pre-save middleware on
a freshly submitted document (claim C6, amended): profit and loss are the
clamped differences, at least one of the two is zero (both are zero
exactly at break-even), and the ratios are derived when revenue is
positive and keep their default 0 when revenue is 0. -/
def perfDerivedSpec (id bus y q sub : Nat) (rev exp : ℚ) : Prop :=
  (bpPresave (mkPerformance id bus y q rev exp sub)).profit = max (rev - exp) 0 ∧
  (bpPresave (mkPerformance id bus y q rev exp sub)).loss = max (exp - rev) 0 ∧
  ((bpPresave (mkPerformance id bus y q rev exp sub)).profit = 0 ∨
    (bpPresave (mkPerformance id bus y q rev exp sub)).loss = 0) ∧
  ((bpPresave (mkPerformance id bus y q rev exp sub)).profit = 0 ∧
    (bpPresave (mkPerformance id bus y q rev exp sub)).loss = 0 ↔ rev = exp) ∧
  (0 < rev →
    (bpPresave (mkPerformance id bus y q rev exp sub)).metrics.profitMargin
      = (bpPresave (mkPerformance id bus y q rev exp sub)).profit / rev * 100 ∧
    (bpPresave (mkPerformance id bus y q rev exp sub)).metrics.expenseRatio
      = exp / rev * 100) ∧
  (rev = 0 →
    (bpPresave (mkPerformance id bus y q rev exp sub)).metrics.profitMargin = 0 ∧
    (bpPresave (mkPerformance id bus y q rev exp sub)).metrics.expenseRatio = 0)

/-- A status operation preserves the frozen snapshot (claim C7): whenever
the operation persists a document, that document carries the unchanged
calculation snapshot and the unchanged amounts. -/
def preservesCalcAmounts (d : Distribution) (e : Except ApiErr Distribution) : Prop :=
  ∀ d2, e = .ok d2 → d2.calculation = d.calculation ∧ d2.amounts = d.amounts

/-- The two on-demand share computations (claim C8, amended):
calculateSharePercentage divides by the business raisedAmount (0 when the
business is absent or raisedAmount is 0), the listing of
getBusinessInvestments divides by the total completed investment (0 when
that total is not positive), and the two agree whenever raisedAmount
equals the total completed investment. -/
def shareSpec (inv : Investment) (b : Business) (invs : List Investment) : Prop :=
  (b.raisedAmount = 0 → calculateSharePercentage inv (some b) = 0) ∧
  (b.raisedAmount ≠ 0 →
    calculateSharePercentage inv (some b) = inv.amount / b.raisedAmount * 100) ∧
  calculateSharePercentage inv none = 0 ∧
  (0 < getTotalInvestmentForBusiness invs →
    listedSharePercentage inv (getTotalInvestmentForBusiness invs)
      = inv.amount / getTotalInvestmentForBusiness invs * 100) ∧
  (getTotalInvestmentForBusiness invs = 0 →
    listedSharePercentage inv (getTotalInvestmentForBusiness invs) = 0) ∧
  (b.raisedAmount = getTotalInvestmentForBusiness invs →
    calculateSharePercentage inv (some b)
      = listedSharePercentage inv (getTotalInvestmentForBusiness invs))

/-- Break-even approval (claim C10): the approval run fails with a
validation error, after the performance has already been marked approved
with profit 0 and loss 0, no Distribution is persisted, and every
Distribution the loop would build has zero shares and an unset
distributionType. -/
def breakEvenSpec (adminId now : Nat) (perf : Performance)
    (invs : List Investment) (store : List Distribution) : Prop :=
  approvePerformance adminId now perf invs store
    = (.error .validation, perfApprove adminId now perf, store) ∧
  (perfApprove adminId now perf).status = .approved ∧
  (perfApprove adminId now perf).profit = 0 ∧
  (perfApprove adminId now perf).loss = 0 ∧
  ∀ i ∈ completedOf invs,
    (dPresave now (mkDistribution adminId now (perfApprove adminId now perf)
        (totalOf (completedOf invs)) i)).amounts.profitShare = 0 ∧
    (dPresave now (mkDistribution adminId now (perfApprove adminId now perf)
        (totalOf (completedOf invs)) i)).amounts.lossShare = 0 ∧
    (dPresave now (mkDistribution adminId now (perfApprove adminId now perf)
        (totalOf (completedOf invs)) i)).metadata.distributionType = none

/-! ## Concrete states used by the witnesses and counterexamples -/

/-- Fresh metrics of a new business. -/
def exMetrics0 : BizMetrics := { totalInvestors := 0, averageInvestment := 0, fundingProgress := 0 }

/-- A business with fundingGoal 10000 and nothing raised yet. -/
def exBiz : Business :=
  { fundingGoal := 10000, raisedAmount := 0, status := .opn, metrics := exMetrics0 }

/-- A pending payment sub-document with the given transaction id. -/
def exPay (t : Nat) : InvPayment :=
  { transactionId := some t, paymentMethod := 0, paymentStatus := .pending,
    paidAt := none, paymentReference := none }

/-- Fresh tracking sub-document. -/
def exTrack : Tracking := { investedAt := none, lastUpdated := 0, notes := none }

/-- Empty refund sub-document. -/
def exRefund0 : Refund := { amount := none, reason := none, processedAt := none, processedBy := none }

/-- The pending 6000 investment of investor A in business 7. -/
def exInvA : Investment :=
  { id := 1, investor := 11, business := 7, amount := 6000, status := .pending,
    payment := exPay 1, tracking := exTrack, refund := exRefund0 }

/-- The pending 4000 investment of investor B in business 7. -/
def exInvB : Investment :=
  { id := 2, investor := 12, business := 7, amount := 4000, status := .pending,
    payment := exPay 2, tracking := exTrack, refund := exRefund0 }

/-- Settlement of investment A against the fresh business. -/
def exSettleA : Except ApiErr Unit × SettleState :=
  verifyInvestment 11 5 none 0 ⟨exInvA, some exBiz⟩

/-- Settlement of investment B against the business credited by A. -/
def exSettleB : Except ApiErr Unit × SettleState :=
  verifyInvestment 12 6 none 0 ⟨exInvB, exSettleA.2.biz?⟩

/-- The stored completed investment of investor A: amount 6000 in
business 7, payment settled. -/
def exInvAc : Investment :=
  { id := 1, investor := 11, business := 7, amount := 6000, status := .completed,
    payment := { transactionId := some 1, paymentMethod := 0, paymentStatus := .completed,
                 paidAt := some 5, paymentReference := none },
    tracking := { investedAt := some 5, lastUpdated := 5, notes := none },
    refund := exRefund0 }

/-- The stored completed investment of investor B: amount 4000 in
business 7, payment settled. -/
def exInvBc : Investment :=
  { id := 2, investor := 12, business := 7, amount := 4000, status := .completed,
    payment := { transactionId := some 2, paymentMethod := 0, paymentStatus := .completed,
                 paidAt := some 6, paymentReference := none },
    tracking := { investedAt := some 6, lastUpdated := 6, notes := none },
    refund := exRefund0 }

/-- Investment B after a refund of its settled payment; processRefund does
not touch the business record, so the business raisedAmount keeps the
refunded credit. -/
def exInvBr : Investment := processRefund 4000 1 99 8 exInvBc

/-- The business of the two settled investments: goal 10000 fully raised
and funded. -/
def exBizR : Business :=
  { fundingGoal := 10000, raisedAmount := 10000, status := .funded,
    metrics := { totalInvestors := 2, averageInvestment := 5000, fundingProgress := 100 } }

/-- The stored verified performance of business 7 for Q1 2024: revenue
50000, expenses 30000, derived fields as persisted by the submit and
verify saves. -/
def exPerfV : Performance :=
  { id := 50, business := 7, periodYear := 2024, periodQuarter := 1,
    revenue := 50000, expenses := 30000, profit := 20000, loss := 0,
    metrics := { revenueGrowth := 0, profitMargin := 40, expenseRatio := 60,
                 returnOnInvestment := 40 },
    status := .verified, submittedBy := 42, verifiedBy := some 99, verifiedAt := some 3 }

/-- The stored verified break-even performance of business 7 for Q2 2024:
revenue equals expenses. -/
def exPerfBE : Performance :=
  { id := 51, business := 7, periodYear := 2024, periodQuarter := 2,
    revenue := 100, expenses := 100, profit := 0, loss := 0,
    metrics := { revenueGrowth := 0, profitMargin := 0, expenseRatio := 100,
                 returnOnInvestment := 0 },
    status := .verified, submittedBy := 42, verifiedBy := some 99, verifiedAt := some 3 }

/-- The verified performance after its approval save, as a stored record. -/
def exPerfAppr : Performance := { exPerfV with status := .approved }

/-- A persisted Distribution (its amounts agree with its snapshot), used
to witness the frame property of the status operations. -/
def exDist : Distribution :=
  { business := 7, businessPerformance := 50, investor := 11, investment := 1,
    calculation := { investmentAmount := 6000, totalBusinessInvestment := 10000,
                     sharePercentage := 60, businessProfit := 20000, businessLoss := 0 },
    amounts := { profitShare := 12000, lossShare := 0, netDistribution := 12000 },
    status := .pending,
    payment := { method := none, transactionId := none, processedAt := none,
                 processedBy := none, failureReason := none },
    periodYear := 2024, periodQuarter := 1,
    approval := { approvedBy := none, approvedAt := none, approvalNotes := none },
    audit := { createdBy := 1, lastModifiedBy := none, lastModifiedAt := 9 },
    metadata := { distributionType := some .profit, taxDeducted := 0,
                  netAmountAfterTax := 12000 } }

/-! ## Helper lemmas -/

theorem updateStatus_raisedAmount (b : Business) :
    (updateStatus b).raisedAmount = b.raisedAmount := by
  unfold updateStatus; split_ifs <;> rfl

theorem updateStatus_fundingGoal (b : Business) :
    (updateStatus b).fundingGoal = b.fundingGoal := by
  unfold updateStatus; split_ifs <;> rfl

theorem updateStatus_metrics (b : Business) :
    (updateStatus b).metrics = b.metrics := by
  unfold updateStatus; split_ifs <;> rfl

theorem updateStatus_funded_iff (b : Business) :
    (updateStatus b).status = .funded ↔ b.fundingGoal ≤ b.raisedAmount := by
  unfold updateStatus
  split_ifs with h1 h2
  · simp [h1]
  · simp [h1]
  · have hnf : b.status ≠ .funded := fun hf => h2 ⟨hf, not_le.mp h1⟩
    simp [h1, hnf]

theorem bizSave_raisedAmount (b : Business) : (bizSave b).raisedAmount = b.raisedAmount := rfl

theorem bizSave_fundingGoal (b : Business) : (bizSave b).fundingGoal = b.fundingGoal := rfl

theorem bizSave_status (b : Business) : (bizSave b).status = b.status := rfl

theorem bizSave_totalInvestors (b : Business) :
    (bizSave b).metrics.totalInvestors = b.metrics.totalInvestors := rfl

theorem bizSave_averageInvestment (b : Business) :
    (bizSave b).metrics.averageInvestment = b.metrics.averageInvestment := rfl

theorem invPresave_status (now : Nat) (m : Bool) (inv : Investment) :
    (invPresave now m inv).status = inv.status := by
  unfold invPresave; split_ifs <;> rfl

theorem invPresave_investor (now : Nat) (m : Bool) (inv : Investment) :
    (invPresave now m inv).investor = inv.investor := by
  unfold invPresave; split_ifs <;> rfl

theorem invPresave_payment (now : Nat) (m : Bool) (inv : Investment) :
    (invPresave now m inv).payment = inv.payment := by
  unfold invPresave; split_ifs <;> rfl

theorem markAsCompleted_status (now : Nat) (pd : PaymentDetails) (inv : Investment) :
    (markAsCompleted now pd inv).status = .completed := by
  rw [markAsCompleted, invPresave_status]

theorem markAsCompleted_investor (now : Nat) (pd : PaymentDetails) (inv : Investment) :
    (markAsCompleted now pd inv).investor = inv.investor := by
  rw [markAsCompleted, invPresave_investor]

theorem markAsCompleted_paidAt (now : Nat) (pd : PaymentDetails) (inv : Investment) :
    (markAsCompleted now pd inv).payment.paidAt = some now := by
  rw [markAsCompleted, invPresave_payment]

theorem markAsCompleted_investedAt (now : Nat) (pd : PaymentDetails) (inv : Investment) :
    (markAsCompleted now pd inv).tracking.investedAt = some now := by
  simp [markAsCompleted, invPresave]

theorem verifyInvestment_ok_state (caller now : Nat) (ref : Option Nat) (method : Nat)
    (s : SettleState) (hp : s.inv.status = .pending) (hc : s.inv.investor = caller) :
    verifyInvestment caller now ref method s =
      (.ok (), { inv := markAsCompleted now
                   { paymentMethod := method, paymentReference := ref,
                     paymentStatus := .completed, paidAt := some now } s.inv,
                 biz? := s.biz?.map (settledBusiness s.inv.amount) }) := by
  obtain ⟨inv, bz⟩ := s
  simp only at hp hc
  unfold verifyInvestment
  rw [if_neg (by simp [hc]), if_neg (by simp [hp])]
  cases bz <;> rfl

theorem bpDeriveNet_profit (p : Performance) :
    (bpDeriveNet p).profit = max (p.revenue - p.expenses) 0 := by
  unfold bpDeriveNet
  split_ifs with h1
  · exact (max_eq_left h1).symm
  · exact (max_eq_right (le_of_lt (not_le.mp h1))).symm

theorem bpDeriveNet_loss (p : Performance) :
    (bpDeriveNet p).loss = max (p.expenses - p.revenue) 0 := by
  unfold bpDeriveNet
  split_ifs with h1
  · exact (max_eq_right (by linarith : p.expenses - p.revenue ≤ (0 : ℚ))).symm
  · have h2 : 0 < p.expenses - p.revenue := by
      have := not_le.mp h1; linarith
    calc |p.revenue - p.expenses| = p.expenses - p.revenue := by
          rw [abs_sub_comm]; exact abs_of_pos h2
      _ = max (p.expenses - p.revenue) 0 := (max_eq_left h2.le).symm

theorem bpDeriveNet_frame (p : Performance) :
    (bpDeriveNet p).revenue = p.revenue ∧ (bpDeriveNet p).expenses = p.expenses ∧
    (bpDeriveNet p).status = p.status ∧ (bpDeriveNet p).metrics = p.metrics ∧
    (bpDeriveNet p).periodQuarter = p.periodQuarter := by
  unfold bpDeriveNet; split_ifs <;> exact ⟨rfl, rfl, rfl, rfl, rfl⟩

theorem bpDeriveMargins_frame (p : Performance) :
    (bpDeriveMargins p).revenue = p.revenue ∧ (bpDeriveMargins p).expenses = p.expenses ∧
    (bpDeriveMargins p).status = p.status ∧ (bpDeriveMargins p).profit = p.profit ∧
    (bpDeriveMargins p).loss = p.loss ∧
    (bpDeriveMargins p).periodQuarter = p.periodQuarter := by
  unfold bpDeriveMargins; split_ifs <;> exact ⟨rfl, rfl, rfl, rfl, rfl, rfl⟩

theorem bpDeriveROI_frame (p : Performance) :
    (bpDeriveROI p).revenue = p.revenue ∧ (bpDeriveROI p).expenses = p.expenses ∧
    (bpDeriveROI p).status = p.status ∧ (bpDeriveROI p).profit = p.profit ∧
    (bpDeriveROI p).loss = p.loss ∧
    (bpDeriveROI p).metrics.profitMargin = p.metrics.profitMargin ∧
    (bpDeriveROI p).metrics.expenseRatio = p.metrics.expenseRatio ∧
    (bpDeriveROI p).periodQuarter = p.periodQuarter := by
  unfold bpDeriveROI; split_ifs <;> exact ⟨rfl, rfl, rfl, rfl, rfl, rfl, rfl, rfl⟩

theorem bpPresave_status (p : Performance) : (bpPresave p).status = p.status := by
  rw [bpPresave, (bpDeriveROI_frame _).2.2.1, (bpDeriveMargins_frame _).2.2.1,
    (bpDeriveNet_frame _).2.2.1]

theorem bpPresave_revenue (p : Performance) : (bpPresave p).revenue = p.revenue := by
  rw [bpPresave, (bpDeriveROI_frame _).1, (bpDeriveMargins_frame _).1, (bpDeriveNet_frame _).1]

theorem bpPresave_expenses (p : Performance) : (bpPresave p).expenses = p.expenses := by
  rw [bpPresave, (bpDeriveROI_frame _).2.1, (bpDeriveMargins_frame _).2.1,
    (bpDeriveNet_frame _).2.1]

theorem bpPresave_periodQuarter (p : Performance) :
    (bpPresave p).periodQuarter = p.periodQuarter := by
  rw [bpPresave, (bpDeriveROI_frame _).2.2.2.2.2.2.2, (bpDeriveMargins_frame _).2.2.2.2.2,
    (bpDeriveNet_frame _).2.2.2.2]

theorem bpPresave_profit (p : Performance) :
    (bpPresave p).profit = max (p.revenue - p.expenses) 0 := by
  rw [bpPresave, (bpDeriveROI_frame _).2.2.2.1, (bpDeriveMargins_frame _).2.2.2.1,
    bpDeriveNet_profit]

theorem bpPresave_loss (p : Performance) :
    (bpPresave p).loss = max (p.expenses - p.revenue) 0 := by
  rw [bpPresave, (bpDeriveROI_frame _).2.2.2.2.1, (bpDeriveMargins_frame _).2.2.2.2.1,
    bpDeriveNet_loss]

theorem bpPresave_profitMargin_pos (p : Performance) (h : 0 < p.revenue) :
    (bpPresave p).metrics.profitMargin = (bpPresave p).profit / p.revenue * 100 := by
  have hnet := bpDeriveNet_frame p
  have hrev : (bpDeriveNet p).revenue = p.revenue := hnet.1
  rw [bpPresave, (bpDeriveROI_frame _).2.2.2.2.2.1, (bpDeriveROI_frame _).2.2.2.1,
    (bpDeriveMargins_frame _).2.2.2.1]
  unfold bpDeriveMargins
  rw [if_pos (by rw [hrev]; exact h)]
  simp [hrev]

theorem bpPresave_expenseRatio_pos (p : Performance) (h : 0 < p.revenue) :
    (bpPresave p).metrics.expenseRatio = p.expenses / p.revenue * 100 := by
  have hnet := bpDeriveNet_frame p
  rw [bpPresave, (bpDeriveROI_frame _).2.2.2.2.2.2.1]
  unfold bpDeriveMargins
  rw [if_pos (by rw [hnet.1]; exact h)]
  simp [hnet.1, hnet.2.1]

theorem bpPresave_margins_zero (p : Performance) (h : ¬ 0 < p.revenue) :
    (bpPresave p).metrics.profitMargin = p.metrics.profitMargin ∧
    (bpPresave p).metrics.expenseRatio = p.metrics.expenseRatio := by
  have hnet := bpDeriveNet_frame p
  have hrev : (bpDeriveNet p).revenue = p.revenue := hnet.1
  have hmet : (bpDeriveNet p).metrics = p.metrics := hnet.2.2.2.1
  rw [bpPresave]
  unfold bpDeriveMargins
  rw [if_neg (by rw [hrev]; exact h)]
  unfold bpDeriveROI
  rw [if_neg (by rw [hrev]; exact h)]
  rw [hmet]
  exact ⟨rfl, rfl⟩

theorem perfApprove_status (a now : Nat) (p : Performance) :
    (perfApprove a now p).status = .approved := by
  rw [perfApprove, bpPresave_status]

theorem perfApprove_periodQuarter (a now : Nat) (p : Performance) :
    (perfApprove a now p).periodQuarter = p.periodQuarter := by
  rw [perfApprove, bpPresave_periodQuarter]

theorem perfApprove_profit (a now : Nat) (p : Performance) :
    (perfApprove a now p).profit = max (p.revenue - p.expenses) 0 := by
  rw [perfApprove, bpPresave_profit]

theorem perfApprove_loss (a now : Nat) (p : Performance) :
    (perfApprove a now p).loss = max (p.expenses - p.revenue) 0 := by
  rw [perfApprove, bpPresave_loss]

theorem dPresave_calculation (now : Nat) (d : Distribution) :
    (dPresave now d).calculation = d.calculation := rfl

theorem dPresave_amounts (now : Nat) (d : Distribution) :
    (dPresave now d).amounts = computeAmounts d.calculation := rfl

theorem dSave_ok_inv {now : Nat} {d d2 : Distribution} (h : dSave now d = .ok d2) :
    d2 = dPresave now d := by
  by_cases hv : dValidate (dPresave now d)
  · simp [dSave, hv] at h; exact h.symm
  · simp [dSave, hv] at h

theorem mem_completedOf {i : Investment} {invs : List Investment} :
    i ∈ completedOf invs ↔ i ∈ invs ∧ i.status = .completed := by
  simp [completedOf, List.mem_filter]

theorem totalOf_pos {l : List Investment} (h : ∀ i ∈ l, 0 < i.amount) (hne : l ≠ []) :
    0 < totalOf l := by
  refine List.sum_pos _ ?_ ?_
  · intro x hx
    obtain ⟨i, hi, rfl⟩ := List.mem_map.mp hx
    exact h i hi
  · intro hmap
    exact hne (List.map_eq_nil_iff.mp hmap)

theorem totalOf_nonneg {l : List Investment} (h : ∀ i ∈ l, 0 ≤ i.amount) :
    0 ≤ totalOf l := by
  refine List.sum_nonneg ?_
  intro x hx
  obtain ⟨i, hi, rfl⟩ := List.mem_map.mp hx
  exact h i hi

theorem amount_le_totalOf {l : List Investment} (h : ∀ i ∈ l, 0 ≤ i.amount)
    {i : Investment} (hi : i ∈ l) : i.amount ≤ totalOf l := by
  refine List.single_le_sum ?_ _ (List.mem_map_of_mem _ hi)
  intro x hx
  obtain ⟨j, hj, rfl⟩ := List.mem_map.mp hx
  exact h j hj

theorem dPresave_dtype_isSome {now : Nat} {d : Distribution}
    (h : 0 < d.calculation.sharePercentage / 100 * d.calculation.businessProfit ∨
         0 < d.calculation.sharePercentage / 100 * d.calculation.businessLoss) :
    (dPresave now d).metadata.distributionType.isSome = true := by
  simp only [dPresave]
  split_ifs with h1 h2 h3 <;> simp_all

theorem dValidate_mk (adminId now : Nat) (p : Performance) (total : ℚ) (i : Investment)
    (ha : 0 < i.amount) (hat : i.amount ≤ total) (htot : 0 < total)
    (hp : 0 ≤ p.profit) (hl : 0 ≤ p.loss) (hpl : 0 < p.profit ∨ 0 < p.loss)
    (hq1 : 1 ≤ p.periodQuarter) (hq4 : p.periodQuarter ≤ 4) :
    dValidate (dPresave now (mkDistribution adminId now p total i)) := by
  have hshare : 0 < i.amount / total * 100 :=
    mul_pos (div_pos ha htot) (by norm_num)
  have hshare100 : i.amount / total * 100 ≤ 100 := by
    have h1 : i.amount / total ≤ 1 := (div_le_one htot).mpr hat
    calc i.amount / total * 100 ≤ 1 * 100 :=
          mul_le_mul_of_nonneg_right h1 (by norm_num)
      _ = 100 := one_mul _
  have hsome : (dPresave now (mkDistribution adminId now p total i)).metadata.distributionType.isSome = true := by
    apply dPresave_dtype_isSome
    rcases hpl with hP | hL
    · exact Or.inl (mul_pos (by positivity) hP)
    · exact Or.inr (mul_pos (by positivity) hL)
  refine ⟨hsome, hshare.le, hshare100, mul_nonneg (by positivity) hp,
    mul_nonneg (by positivity) hl, hq1, hq4⟩

theorem saveLoop_all_ok (now : Nat) (ds : List Distribution)
    (h : ∀ d ∈ ds, dValidate (dPresave now d)) :
    ∀ (k : Nat) (store : List Distribution),
      saveLoop (fun _ => false) now k ds store = (.ok (), store ++ ds.map (dPresave now)) := by
  induction ds with
  | nil => intro k store; simp [saveLoop]
  | cons d rest ih =>
    intro k store
    have hd := h d (by simp)
    have hrest := ih (fun x hx => h x (by simp [hx])) (k + 1) (store ++ [dPresave now d])
    rw [saveLoop]
    rw [if_neg (by simp : ¬ ((fun (_ : Nat) => false) k = true))]
    rw [show dSave now d = Except.ok (dPresave now d) from by simp [dSave, hd]]
    show saveLoop (fun _ => false) now (k + 1) rest (store ++ [dPresave now d]) = _
    rw [hrest]
    simp

theorem saveLoop_ok_store {faults : Nat → Bool} {now : Nat} :
    ∀ {ds : List Distribution} {k : Nat} {store st : List Distribution},
      saveLoop faults now k ds store = (.ok (), st) →
      st = store ++ ds.map (dPresave now) := by
  intro ds
  induction ds with
  | nil => intro k store st h; simp [saveLoop] at h; simp [h.symm]
  | cons d rest ih =>
    intro k store st h
    rw [saveLoop] at h
    by_cases hf : faults k = true
    · rw [if_pos hf] at h; cases h
    · rw [if_neg hf] at h
      by_cases hv : dValidate (dPresave now d)
      · rw [show dSave now d = Except.ok (dPresave now d) from by simp [dSave, hv]] at h
        replace h : saveLoop faults now (k + 1) rest (store ++ [dPresave now d])
            = (.ok (), st) := h
        have := ih h
        simp [this]
      · rw [show dSave now d = Except.error .validation from by simp [dSave, hv]] at h
        replace h : ((Except.error .validation : Except ApiErr Unit), store) = (.ok (), st) := h
        exact absurd (congrArg Prod.fst h) (by simp)

theorem perfApprove_profit_or_loss_pos (a now : Nat) (p : Performance)
    (h : p.revenue ≠ p.expenses) :
    0 < (perfApprove a now p).profit ∨ 0 < (perfApprove a now p).loss := by
  rcases lt_or_gt_of_ne (sub_ne_zero.mpr h) with hlt | hgt
  · right
    rw [perfApprove_loss]
    exact lt_max_iff.mpr (Or.inl (by linarith))
  · left
    rw [perfApprove_profit]
    exact lt_max_iff.mpr (Or.inl (by linarith))

theorem approvePerformance_run (adminId now : Nat) (perf : Performance)
    (invs : List Investment) (store : List Distribution)
    (hv : perf.status = .verified) (hne : completedOf invs ≠ [])
    (hval : ∀ d ∈ (completedOf invs).map
        (mkDistribution adminId now (perfApprove adminId now perf) (totalOf (completedOf invs))),
      dValidate (dPresave now d)) :
    approvePerformance adminId now perf invs store
      = (.ok (), perfApprove adminId now perf,
          store ++ fanDistributions adminId now (perfApprove adminId now perf)
            (completedOf invs)) := by
  obtain ⟨c, cs, hco⟩ := List.exists_cons_of_ne_nil hne
  have hemp : (completedOf invs).isEmpty = false := by rw [hco]; rfl
  simp only [approvePerformance, approvePerformanceF]
  rw [if_neg (by simp [hv]), if_neg (by simp [hemp])]
  rw [saveLoop_all_ok now _ hval 0 store]
  simp [fanDistributions, List.map_map, Function.comp]

/-! ## Claim theorems -/

/-- C3: for every pending Investment, a successful settlement
(verifyInvestment) sets the investment to completed with payment.paidAt
and tracking.investedAt set, increments the business raisedAmount by
exactly the investment amount, increments metrics.totalInvestors by one,
sets averageInvestment = raisedAmount / totalInvestors, and the resulting
business status is funded if and only if raisedAmount has reached the
funding goal. -/
theorem settleInvestment_effect (caller now : Nat) (ref : Option Nat) (method : Nat)
    (inv : Investment) (b : Business)
    (hp : inv.status = .pending) (hc : inv.investor = caller) :
    settleSpec caller now ref method inv b := by
  have hrw := verifyInvestment_ok_state caller now ref method ⟨inv, some b⟩ hp hc
  unfold settleSpec
  rw [hrw]
  refine ⟨rfl, markAsCompleted_status _ _ _, markAsCompleted_paidAt _ _ _,
    markAsCompleted_investedAt _ _ _, rfl, ?_⟩
  intro b2 hb2
  rw [show (some b).map (settledBusiness inv.amount) = some (settledBusiness inv.amount b)
    from rfl] at hb2
  injection hb2 with hb2
  subst hb2
  refine ⟨?_, ?_, ?_, ?_⟩
  · show (settledBusiness inv.amount b).raisedAmount = _
    rw [settledBusiness, bizSave_raisedAmount, updateStatus_raisedAmount]
  · show (settledBusiness inv.amount b).metrics.totalInvestors = _
    rw [settledBusiness, bizSave_totalInvestors, updateStatus_metrics]
  · show (settledBusiness inv.amount b).metrics.averageInvestment = _
    rw [settledBusiness, bizSave_averageInvestment, updateStatus_metrics,
      bizSave_raisedAmount, updateStatus_raisedAmount, bizSave_totalInvestors,
      updateStatus_metrics]
  · show (settledBusiness inv.amount b).status = .funded ↔ _
    rw [settledBusiness, bizSave_status, updateStatus_funded_iff,
      bizSave_raisedAmount, updateStatus_raisedAmount]

/-- Witness for C3: settling the pending 6000 investment of investor A
against the fresh business with goal 10000, followed by the concrete
two-investor scenario: after settling 6000 and then 4000 the business is
funded with raisedAmount 10000, 2 investors and averageInvestment 5000. -/
theorem settleInvestment_effect_witness :
    settleSpec 11 5 none 0 exInvA exBiz ∧
    exSettleB.2.biz?.map Business.raisedAmount = some 10000 ∧
    exSettleB.2.biz?.map Business.status = some .funded ∧
    exSettleB.2.biz?.map (fun b => b.metrics.totalInvestors) = some 2 ∧
    exSettleB.2.biz?.map (fun b => b.metrics.averageInvestment) = some 5000 :=
  ⟨settleInvestment_effect 11 5 none 0 exInvA exBiz (by decide) (by decide), by
    norm_num [exSettleB, exSettleA, exInvA, exInvB, exBiz, exMetrics0, exPay, exTrack,
      exRefund0, verifyInvestment, markAsCompleted, invPresave, settledBusiness, bizSave,
      updateStatus]⟩

/-- C4: after a first successful verifyInvestment, a second
verifyInvestment on the same investment fails with an InvalidState error
and returns the state unchanged, so the business raisedAmount and metrics
are credited only once. -/
theorem settle_idempotent (caller now now2 : Nat) (ref ref2 : Option Nat)
    (method method2 : Nat) (s : SettleState)
    (h : (verifyInvestment caller now ref method s).1 = .ok ()) :
    verifyInvestment caller now2 ref2 method2 (verifyInvestment caller now ref method s).2
      = (.error .invalidState, (verifyInvestment caller now ref method s).2) := by
  by_cases hc : s.inv.investor = caller
  · by_cases hp : s.inv.status = .pending
    · rw [verifyInvestment_ok_state caller now ref method s hp hc]
      have h1 : (markAsCompleted now
          { paymentMethod := method, paymentReference := ref,
            paymentStatus := .completed, paidAt := some now } s.inv).investor = caller := by
        rw [markAsCompleted_investor]; exact hc
      have h2 : (markAsCompleted now
          { paymentMethod := method, paymentReference := ref,
            paymentStatus := .completed, paidAt := some now } s.inv).status = .completed :=
        markAsCompleted_status _ _ _
      unfold verifyInvestment
      rw [if_neg (by simp [h1]), if_pos (by simp [h2])]
    · exact absurd h (by
        unfold verifyInvestment
        rw [if_neg (by simp [hc]), if_pos (by simp [hp])]
        simp)
  · exact absurd h (by unfold verifyInvestment; rw [if_pos (by simp [hc])]; simp)

/-- Witness for C4: investor A settles the pending 6000 investment, and
the retry on the resulting state fails with InvalidState leaving the
state unchanged. -/
theorem settle_idempotent_witness :
    verifyInvestment 11 7 none 0 (verifyInvestment 11 5 none 0 ⟨exInvA, some exBiz⟩).2
      = (.error .invalidState, (verifyInvestment 11 5 none 0 ⟨exInvA, some exBiz⟩).2) :=
  settle_idempotent 11 5 7 none none 0 0 ⟨exInvA, some exBiz⟩
    (by simp [verifyInvestment, exInvA])

/-- C5: approvePerformance on a performance whose status is not verified
fails with an InvalidState error and returns the performance and the
distribution store unchanged, for any behaviour of the storage layer. -/
theorem approvePerformance_requires_verified (faults : Nat → Bool) (adminId now : Nat)
    (perf : Performance) (invs : List Investment) (store : List Distribution)
    (h : perf.status ≠ .verified) :
    approvePerformanceF faults adminId now perf invs store
      = (.error .invalidState, perf, store) := by
  unfold approvePerformanceF
  rw [if_pos h]

/-- Witness for C5: retrying approval on an already approved performance
whose distribution store is non-empty changes nothing: the retry errors
with InvalidState and the stored performance and distributions are
returned unchanged. -/
theorem approvePerformance_requires_verified_witness :
    approvePerformanceF (fun _ => false) 1 10 exPerfAppr [exInvAc, exInvBc] [exDist]
      = (.error .invalidState, exPerfAppr, [exDist]) :=
  approvePerformance_requires_verified (fun _ => false) 1 10 exPerfAppr
    [exInvAc, exInvBc] [exDist] (by decide)

theorem sum_map_amount_mul (L : List Investment) (r : ℚ) :
    (L.map (fun i => i.amount * r)).sum = totalOf L * r := by
  induction L with
  | nil => simp [totalOf]
  | cons a l ih => simp [totalOf, List.map_cons, List.sum_cons, add_mul, ih]

theorem fanDist_sum_profit (adminId now : Nat) (p : Performance) (L : List Investment)
    (htne : totalOf L ≠ 0) :
    ((fanDistributions adminId now p L).map (fun d => d.amounts.profitShare)).sum
      = p.profit := by
  rw [fanDistributions, List.map_map]
  have hcongr : L.map ((fun d => d.amounts.profitShare) ∘
        fun i => dPresave now (mkDistribution adminId now p (totalOf L) i))
      = L.map (fun i => i.amount * (p.profit / totalOf L)) := by
    refine List.map_congr_left (fun i hi => ?_)
    show i.amount / totalOf L * 100 / 100 * p.profit = i.amount * (p.profit / totalOf L)
    ring
  rw [hcongr, sum_map_amount_mul, mul_comm, div_mul_cancel₀ _ htne]

theorem fanDist_sum_loss (adminId now : Nat) (p : Performance) (L : List Investment)
    (htne : totalOf L ≠ 0) :
    ((fanDistributions adminId now p L).map (fun d => d.amounts.lossShare)).sum
      = p.loss := by
  rw [fanDistributions, List.map_map]
  have hcongr : L.map ((fun d => d.amounts.lossShare) ∘
        fun i => dPresave now (mkDistribution adminId now p (totalOf L) i))
      = L.map (fun i => i.amount * (p.loss / totalOf L)) := by
    refine List.map_congr_left (fun i hi => ?_)
    show i.amount / totalOf L * 100 / 100 * p.loss = i.amount * (p.loss / totalOf L)
    ring
  rw [hcongr, sum_map_amount_mul, mul_comm, div_mul_cancel₀ _ htne]

theorem fanDist_sum_share (adminId now : Nat) (p : Performance) (L : List Investment)
    (htne : totalOf L ≠ 0) :
    ((fanDistributions adminId now p L).map (fun d => d.calculation.sharePercentage)).sum
      = 100 := by
  rw [fanDistributions, List.map_map]
  have hcongr : L.map ((fun d => d.calculation.sharePercentage) ∘
        fun i => dPresave now (mkDistribution adminId now p (totalOf L) i))
      = L.map (fun i => i.amount * (100 / totalOf L)) := by
    refine List.map_congr_left (fun i hi => ?_)
    show i.amount / totalOf L * 100 = i.amount * (100 / totalOf L)
    ring
  rw [hcongr, sum_map_amount_mul, mul_comm, div_mul_cancel₀ _ htne]

theorem fanout_preconditions (adminId now : Nat) (perf : Performance)
    (invs : List Investment)
    (hq1 : 1 ≤ perf.periodQuarter) (hq4 : perf.periodQuarter ≤ 4)
    (hpos : ∀ i ∈ invs, i.status = .completed → 0 < i.amount)
    (hrum : perf.revenue ≠ perf.expenses) (hcne : completedOf invs ≠ []) :
    ∀ d ∈ (completedOf invs).map
        (mkDistribution adminId now (perfApprove adminId now perf)
          (totalOf (completedOf invs))),
      dValidate (dPresave now d) := by
  have hposc : ∀ i ∈ completedOf invs, 0 < i.amount := by
    intro i hi
    obtain ⟨h1, h2⟩ := mem_completedOf.mp hi
    exact hpos i h1 h2
  have htot : 0 < totalOf (completedOf invs) := totalOf_pos hposc hcne
  have hp0 : 0 ≤ (perfApprove adminId now perf).profit := by
    rw [perfApprove_profit]; exact le_max_right _ _
  have hl0 : 0 ≤ (perfApprove adminId now perf).loss := by
    rw [perfApprove_loss]; exact le_max_right _ _
  have hpl := perfApprove_profit_or_loss_pos adminId now perf hrum
  have hq1a : 1 ≤ (perfApprove adminId now perf).periodQuarter := by
    rw [perfApprove_periodQuarter]; exact hq1
  have hq4a : (perfApprove adminId now perf).periodQuarter ≤ 4 := by
    rw [perfApprove_periodQuarter]; exact hq4
  intro d hd
  obtain ⟨i, hi, rfl⟩ := List.mem_map.mp hd
  exact dValidate_mk adminId now _ _ i (hposc i hi)
    (amount_le_totalOf (fun j hj => (hposc j hj).le) hi) htot hp0 hl0 hpl hq1a hq4a

theorem breakEven_run (adminId now : Nat) (perf : Performance)
    (invs : List Investment) (store : List Distribution)
    (hv : perf.status = .verified) (hbe : perf.revenue = perf.expenses)
    (hcne : completedOf invs ≠ []) :
    breakEvenSpec adminId now perf invs store := by
  have hpr : (perfApprove adminId now perf).profit = 0 := by
    rw [perfApprove_profit, hbe, sub_self, max_self]
  have hlo : (perfApprove adminId now perf).loss = 0 := by
    rw [perfApprove_loss, hbe, sub_self, max_self]
  have hps : ∀ i : Investment,
      (dPresave now (mkDistribution adminId now (perfApprove adminId now perf)
        (totalOf (completedOf invs)) i)).amounts.profitShare = 0 := by
    intro i
    have e : (dPresave now (mkDistribution adminId now (perfApprove adminId now perf)
          (totalOf (completedOf invs)) i)).amounts.profitShare
        = i.amount / totalOf (completedOf invs) * 100 / 100
            * (perfApprove adminId now perf).profit := rfl
    rw [e, hpr, mul_zero]
  have hls : ∀ i : Investment,
      (dPresave now (mkDistribution adminId now (perfApprove adminId now perf)
        (totalOf (completedOf invs)) i)).amounts.lossShare = 0 := by
    intro i
    have e : (dPresave now (mkDistribution adminId now (perfApprove adminId now perf)
          (totalOf (completedOf invs)) i)).amounts.lossShare
        = i.amount / totalOf (completedOf invs) * 100 / 100
            * (perfApprove adminId now perf).loss := rfl
    rw [e, hlo, mul_zero]
  have hdt : ∀ i : Investment,
      (dPresave now (mkDistribution adminId now (perfApprove adminId now perf)
        (totalOf (completedOf invs)) i)).metadata.distributionType = none := by
    intro i
    simp [dPresave, mkDistribution, hpr, hlo]
  refine ⟨?_, perfApprove_status adminId now perf, hpr, hlo,
    fun i _ => ⟨hps i, hls i, hdt i⟩⟩
  obtain ⟨c, cs, hco⟩ := List.exists_cons_of_ne_nil hcne
  have hemp : (completedOf invs).isEmpty = false := by rw [hco]; rfl
  have hvalc : ¬ dValidate (dPresave now (mkDistribution adminId now
      (perfApprove adminId now perf) (totalOf (completedOf invs)) c)) := by
    intro hval
    have h1 := hval.1
    rw [hdt c] at h1
    simp at h1
  rw [hco] at hvalc
  simp only [approvePerformance, approvePerformanceF]
  rw [if_neg (by simp [hv]), if_neg (by simp [hemp])]
  rw [hco, List.map_cons, saveLoop]
  rw [if_neg (by simp : ¬ ((fun (_ : Nat) => false) 0 = true))]
  rw [show dSave now (mkDistribution adminId now (perfApprove adminId now perf)
      (totalOf (c :: cs)) c) = Except.error .validation from by simp [dSave, hvalc]]

/-- C1 counterexample: a verified break-even performance of a business
with one completed investment, as stated the claim requires one created
Distribution; the code instead errors with a validation failure and
creates none. -/
theorem fanout_breakEven_cex :
    (completedOf [exInvAc]).length = 1 ∧
    (approvePerformance 1 9 exPerfBE [exInvAc] []).2.2.length = 0 ∧
    (approvePerformance 1 9 exPerfBE [exInvAc] []).1 = .error .validation := by
  have h := breakEven_run 1 9 exPerfBE [exInvAc] [] (by decide) (by decide) (by decide)
  refine ⟨by decide, ?_, ?_⟩
  · rw [h.1]
    rfl
  · rw [h.1]

/-- C1 (amended): for a verified performance of a business whose completed
investments all have positive amounts and whose revenue differs from its
expenses, approvePerformance creates exactly one Distribution per
completed investment with the claimed snapshot and amounts, and with no
completed investment the approval succeeds with zero distributions; a
break-even performance instead fails validation and creates none (claim
C10). -/
theorem approvePerformance_fanout_correct (adminId now : Nat) (perf : Performance)
    (invs : List Investment) (store : List Distribution)
    (hv : perf.status = .verified)
    (hq1 : 1 ≤ perf.periodQuarter) (hq4 : perf.periodQuarter ≤ 4)
    (hpos : ∀ i ∈ invs, i.status = .completed → 0 < i.amount)
    (hrum : perf.revenue ≠ perf.expenses) :
    fanoutSpec adminId now perf invs store := by
  constructor
  · intro hemp
    simp only [approvePerformance, approvePerformanceF]
    rw [if_neg (by simp [hv]), if_pos (by simp [hemp] : (completedOf invs).isEmpty = true)]
  · intro hcne
    have hval := fanout_preconditions adminId now perf invs hq1 hq4 hpos hrum hcne
    refine ⟨approvePerformance_run adminId now perf invs store hv hcne hval, ?_, ?_⟩
    · simp [fanDistributions]
    · intro i hi
      exact ⟨rfl, rfl, rfl, rfl, rfl, rfl⟩

/-- Witness for C1: the verified performance with revenue 50000 and
expenses 30000 over the completed investments of 6000 and 4000. -/
theorem approvePerformance_fanout_correct_witness :
    fanoutSpec 1 9 exPerfV [exInvAc, exInvBc] [] :=
  approvePerformance_fanout_correct 1 9 exPerfV [exInvAc, exInvBc] []
    (by decide) (by decide) (by decide) (by decide) (by decide)

/-- C2: for the batch of Distributions created from an approved
performance over a non-empty set of completed investments with positive
amounts, the profitShares sum exactly to the performance profit, the
lossShares sum exactly to its loss, and the sharePercentages sum to 100,
in exact rational arithmetic. -/
theorem fanout_conservation (adminId now : Nat) (perf : Performance)
    (invs : List Investment) (store : List Distribution)
    (hv : perf.status = .verified)
    (hq1 : 1 ≤ perf.periodQuarter) (hq4 : perf.periodQuarter ≤ 4)
    (hpos : ∀ i ∈ invs, i.status = .completed → 0 < i.amount)
    (hrum : perf.revenue ≠ perf.expenses) (hcne : completedOf invs ≠ []) :
    batchConservation adminId now perf invs store := by
  have hposc : ∀ i ∈ completedOf invs, 0 < i.amount := by
    intro i hi
    obtain ⟨h1, h2⟩ := mem_completedOf.mp hi
    exact hpos i h1 h2
  have htne : totalOf (completedOf invs) ≠ 0 := ne_of_gt (totalOf_pos hposc hcne)
  have hval := fanout_preconditions adminId now perf invs hq1 hq4 hpos hrum hcne
  exact ⟨approvePerformance_run adminId now perf invs store hv hcne hval,
    fanDist_sum_profit adminId now _ _ htne,
    fanDist_sum_loss adminId now _ _ htne,
    fanDist_sum_share adminId now _ _ htne⟩

/-- Witness for C2: the 60/40 batch of the 50000/30000 performance, whose
profitShares 12000 and 8000 sum to the profit 20000. -/
theorem fanout_conservation_witness :
    batchConservation 1 9 exPerfV [exInvAc, exInvBc] [] :=
  fanout_conservation 1 9 exPerfV [exInvAc, exInvBc] []
    (by decide) (by decide) (by decide) (by decide) (by decide) (by decide)

/-- C6 counterexample: at revenue = expenses = 100 the pre-save derivation
yields profit 0 and loss 0, so it is false that exactly one of the two is
zero. -/
theorem perf_derivation_cex :
    (bpPresave (mkPerformance 60 7 2024 3 100 100 43)).profit = 0 ∧
    (bpPresave (mkPerformance 60 7 2024 3 100 100 43)).loss = 0 ∧
    ¬(((bpPresave (mkPerformance 60 7 2024 3 100 100 43)).profit = 0 ∧
        (bpPresave (mkPerformance 60 7 2024 3 100 100 43)).loss ≠ 0) ∨
      ((bpPresave (mkPerformance 60 7 2024 3 100 100 43)).profit ≠ 0 ∧
        (bpPresave (mkPerformance 60 7 2024 3 100 100 43)).loss = 0)) := by
  have h1 : (bpPresave (mkPerformance 60 7 2024 3 100 100 43)).profit = 0 := by
    norm_num [bpPresave, bpDeriveNet, bpDeriveMargins, bpDeriveROI, mkPerformance]
  have h2 : (bpPresave (mkPerformance 60 7 2024 3 100 100 43)).loss = 0 := by
    norm_num [bpPresave, bpDeriveNet, bpDeriveMargins, bpDeriveROI, mkPerformance]
  exact ⟨h1, h2, by simp [h1, h2]⟩

/-- C6 (amended): for every freshly submitted performance with revenue
and expenses non-negative, saving derives profit = max(revenue - expenses, 0)
and loss = max(expenses - revenue, 0), at least one of the two is zero
(both are zero exactly when revenue = expenses), and profitMargin and
expenseRatio are derived when revenue is positive and keep their default
0 when revenue is 0. -/
theorem perf_derivation_correct (id bus y q sub : Nat) (rev exp : ℚ)
    (hr : 0 ≤ rev) (he : 0 ≤ exp) : perfDerivedSpec id bus y q sub rev exp := by
  refine ⟨?_, ?_, ?_, ?_, ?_, ?_⟩
  · rw [bpPresave_profit]
    rfl
  · rw [bpPresave_loss]
    rfl
  · rcases le_total exp rev with hle | hle
    · right
      rw [bpPresave_loss]
      simp only [mkPerformance]
      exact max_eq_right (by linarith)
    · left
      rw [bpPresave_profit]
      simp only [mkPerformance]
      exact max_eq_right (by linarith)
  · constructor
    · rintro ⟨h1, h2⟩
      rw [bpPresave_profit] at h1
      rw [bpPresave_loss] at h2
      simp only [mkPerformance] at h1 h2
      have hx1 : rev - exp ≤ 0 := max_eq_right_iff.mp h1
      have hx2 : exp - rev ≤ 0 := max_eq_right_iff.mp h2
      linarith
    · intro h
      constructor
      · rw [bpPresave_profit]
        simp only [mkPerformance]
        rw [h, sub_self, max_self]
      · rw [bpPresave_loss]
        simp only [mkPerformance]
        rw [h, sub_self, max_self]
  · intro hrev
    constructor
    · have := bpPresave_profitMargin_pos (mkPerformance id bus y q rev exp sub)
        (by simpa [mkPerformance] using hrev)
      simpa [mkPerformance] using this
    · have := bpPresave_expenseRatio_pos (mkPerformance id bus y q rev exp sub)
        (by simpa [mkPerformance] using hrev)
      simpa [mkPerformance] using this
  · intro h0
    have hb := bpPresave_margins_zero (mkPerformance id bus y q rev exp sub)
      (by simp [mkPerformance, h0])
    refine ⟨?_, ?_⟩
    · rw [hb.1]
      rfl
    · rw [hb.2]
      rfl

/-- Witness for C6: revenue 50000 and expenses 30000 derive profit 20000,
loss 0 and profitMargin 40. -/
theorem perf_derivation_correct_witness :
    perfDerivedSpec 50 7 2024 1 42 50000 30000 ∧
    (bpPresave (mkPerformance 50 7 2024 1 50000 30000 42)).profit = 20000 ∧
    (bpPresave (mkPerformance 50 7 2024 1 50000 30000 42)).metrics.profitMargin = 40 :=
  ⟨perf_derivation_correct 50 7 2024 1 42 50000 30000 (by decide) (by decide),
   by norm_num [bpPresave, bpDeriveNet, bpDeriveMargins, bpDeriveROI, mkPerformance],
   by norm_num [bpPresave, bpDeriveNet, bpDeriveMargins, bpDeriveROI, mkPerformance]⟩

/-- C7: the status operations approve, markAsPaid and markAsFailed on a
persisted Distribution (one whose amounts agree with its calculation
snapshot) leave the calculation snapshot and the recomputed amounts
unchanged in whatever document they persist. -/
theorem statusOps_preserve_snapshot (approvedBy processedBy processedBy2 : Nat)
    (notes reason : Option Nat) (pd : DistPaymentDetails) (now now2 now3 : Nat)
    (d : Distribution) (h : d.amounts = computeAmounts d.calculation) :
    preservesCalcAmounts d (dApprove approvedBy notes now d) ∧
    preservesCalcAmounts d (dMarkAsPaid processedBy pd now2 d) ∧
    preservesCalcAmounts d (dMarkAsFailed reason processedBy2 now3 d) := by
  refine ⟨?_, ?_, ?_⟩ <;> intro d2 h2
  · simp only [dApprove] at h2
    have h3 := dSave_ok_inv h2
    subst h3
    refine ⟨dPresave_calculation _ _, ?_⟩
    rw [dPresave_amounts]
    exact h.symm
  · simp only [dMarkAsPaid] at h2
    have h3 := dSave_ok_inv h2
    subst h3
    refine ⟨dPresave_calculation _ _, ?_⟩
    rw [dPresave_amounts]
    exact h.symm
  · simp only [dMarkAsFailed] at h2
    have h3 := dSave_ok_inv h2
    subst h3
    refine ⟨dPresave_calculation _ _, ?_⟩
    rw [dPresave_amounts]
    exact h.symm

/-- Witness for C7: the stored 60 percent Distribution of the 20000
profit performance, under approval, payment and failure marking. -/
theorem statusOps_preserve_snapshot_witness :
    preservesCalcAmounts exDist (dApprove 2 (some 3) 10 exDist) ∧
    preservesCalcAmounts exDist
      (dMarkAsPaid 4 { method := some 1, transactionId := some 77 } 11 exDist) ∧
    preservesCalcAmounts exDist (dMarkAsFailed (some 6) 5 12 exDist) :=
  statusOps_preserve_snapshot 2 4 5 (some 3) (some 6)
    { method := some 1, transactionId := some 77 } 10 11 12 exDist
    (by norm_num [exDist, computeAmounts])

/-- C8 counterexample: investor A holds the only completed investment
(6000) of a business whose raisedAmount is still 10000 because the 4000
investment of investor B was refunded without decrementing raisedAmount;
calculateSharePercentage returns 60, while amount divided by the total
completed investment times 100 is 100. -/
theorem calculateSharePercentage_cex :
    exInvBr.status = .refunded ∧
    getTotalInvestmentForBusiness [exInvAc, exInvBr] = 6000 ∧
    calculateSharePercentage exInvAc (some exBizR) = 60 ∧
    exInvAc.amount / getTotalInvestmentForBusiness [exInvAc, exInvBr] * 100 = 100 ∧
    calculateSharePercentage exInvAc (some exBizR)
      ≠ exInvAc.amount / getTotalInvestmentForBusiness [exInvAc, exInvBr] * 100 := by
  have h1 : exInvBr.status = .refunded := by decide
  have h2 : getTotalInvestmentForBusiness [exInvAc, exInvBr] = 6000 := by
    rw [getTotalInvestmentForBusiness,
      show completedOf [exInvAc, exInvBr] = [exInvAc] from by decide]
    norm_num [totalOf, exInvAc]
  have h3 : calculateSharePercentage exInvAc (some exBizR) = 60 := by
    norm_num [calculateSharePercentage, exInvAc, exBizR]
  have h4 : exInvAc.amount / getTotalInvestmentForBusiness [exInvAc, exInvBr] * 100
      = 100 := by
    rw [h2]
    norm_num [exInvAc]
  refine ⟨h1, h2, h3, h4, ?_⟩
  rw [h3, h4]
  norm_num

/-- C8 (amended): calculateSharePercentage divides the amount by the
business raisedAmount (0 when the business is absent or raisedAmount is
0), the share listed by getBusinessInvestments divides by the total
completed investment of the business (0 when that total is not positive),
and the two computations agree whenever raisedAmount equals the total
completed investment. -/
theorem sharePercentage_formulas (inv : Investment) (b : Business)
    (invs : List Investment) (hamt : ∀ i ∈ invs, 0 ≤ i.amount) :
    shareSpec inv b invs := by
  have htot0 : 0 ≤ getTotalInvestmentForBusiness invs := by
    rw [getTotalInvestmentForBusiness]
    exact totalOf_nonneg (fun i hi => hamt i (mem_completedOf.mp hi).1)
  refine ⟨?_, ?_, rfl, ?_, ?_, ?_⟩
  · intro h0
    simp [calculateSharePercentage, h0]
  · intro hne0
    simp [calculateSharePercentage, hne0]
  · intro hpos
    simp [listedSharePercentage, hpos]
  · intro h0
    simp [listedSharePercentage, h0]
  · intro heq
    by_cases h0 : b.raisedAmount = 0
    · have ht0 : getTotalInvestmentForBusiness invs = 0 := by rw [← heq]; exact h0
      simp [calculateSharePercentage, listedSharePercentage, h0, ht0]
    · have htpos : 0 < getTotalInvestmentForBusiness invs := by
        rcases lt_or_eq_of_le htot0 with hlt | hEq
        · exact hlt
        · exact absurd (heq.trans hEq.symm) h0
      rw [show calculateSharePercentage inv (some b) = inv.amount / b.raisedAmount * 100
        from by simp [calculateSharePercentage, h0]]
      rw [show listedSharePercentage inv (getTotalInvestmentForBusiness invs)
          = inv.amount / getTotalInvestmentForBusiness invs * 100
        from by simp [listedSharePercentage, htpos]]
      rw [heq]

/-- Witness for C8: investor A with 6000 of the 10000 raised by the fully
settled business, where raisedAmount equals the completed total, so both
computations give 60. -/
theorem sharePercentage_formulas_witness :
    shareSpec exInvAc exBizR [exInvAc, exInvBc] :=
  sharePercentage_formulas exInvAc exBizR [exInvAc, exInvBc] (by decide)

/-- C9 (code evidence): with a storage failure injected on the second of
two per-investor saves, the approval run of the verified 50000/30000
performance returns an internal error while exactly one of the two
Distributions of the batch remains persisted and the performance stays
approved; without the failure the same run persists both. -/
theorem fanout_partial_persistence :
    (approvePerformanceF (fun k => k == 1) 1 9 exPerfV [exInvAc, exInvBc] []).1
      = .error .internal ∧
    (completedOf [exInvAc, exInvBc]).length = 2 ∧
    (approvePerformanceF (fun k => k == 1) 1 9 exPerfV [exInvAc, exInvBc] []).2.2.length
      = 1 ∧
    (approvePerformanceF (fun k => k == 1) 1 9 exPerfV [exInvAc, exInvBc] []).2.1.status
      = .approved ∧
    (approvePerformance 1 9 exPerfV [exInvAc, exInvBc] []).2.2.length = 2 := by
  refine ⟨?_, by decide, ?_, ?_, ?_⟩ <;>
    norm_num [approvePerformance, approvePerformanceF, exPerfV, exInvAc, exInvBc,
      completedOf, totalOf, perfApprove, bpPresave, bpDeriveNet, bpDeriveMargins,
      bpDeriveROI, mkDistribution, saveLoop, dSave, dValidate, dPresave]

/-- C10: approving a verified break-even performance (revenue = expenses)
of a business with at least one completed investment marks the
performance approved with profit 0 and loss 0, then fails with a
validation error because every built Distribution has zero shares and an
unset required distributionType, leaving the performance approved with no
Distribution persisted. -/
theorem breakEven_approve_fails_validation (adminId now : Nat) (perf : Performance)
    (invs : List Investment) (store : List Distribution)
    (hv : perf.status = .verified) (hbe : perf.revenue = perf.expenses)
    (hcne : completedOf invs ≠ []) :
    breakEvenSpec adminId now perf invs store :=
  breakEven_run adminId now perf invs store hv hbe hcne

/-- Witness for C10: the verified break-even performance with revenue and
expenses both 100 over the completed 6000 investment. -/
theorem breakEven_approve_fails_validation_witness :
    breakEvenSpec 1 9 exPerfBE [exInvAc] [] :=
  breakEven_approve_fails_validation 1 9 exPerfBE [exInvAc] []
    (by decide) (by decide) (by decide)

end GramSeva
